import Mathlib

/-!
Shallow embedding of the tick-driven snake engine of this repository.
The two source files, `src/SnakeGame.jsx` and `src/App.jsx`, each embed the
whole engine as React state plus callbacks; here the reactive fields are
collected into one state record, and each callback becomes a function on it.
A callback reads the values captured in its closure at the render at which
it was created, i.e. the values of the state record it is applied to; in
particular `generateFood` filters its random candidates against the snake
captured *before* the move, exactly as the source closures do.

Randomness (`Math.random()` in `generateFood`) is modelled by an explicit
oracle stream `rand : Nat → Cell` of successive draws, and the source's
unbounded do/while loop by a fuel parameter: `none` means the loop has not
terminated within `fuel` draws.
-/

/-- A grid coordinate pair, as the `{x, y}` objects of the source. -/
structure Cell where
  x : Int
  y : Int
deriving DecidableEq, Repr

/-- `const GRID_SIZE = 20` (same constant in both files). -/
def GRID_SIZE : Int := 20

/-- `const INITIAL_SNAKE = [{x: 10, y: 10}]`. -/
def INITIAL_SNAKE : List Cell := [⟨10, 10⟩]

/-- `const INITIAL_FOOD = {x: 15, y: 15}`. -/
def INITIAL_FOOD : Cell := ⟨15, 15⟩

/-- `const INITIAL_DIRECTION = {x: 0, y: -1}`. -/
def INITIAL_DIRECTION : Cell := ⟨0, -1⟩

/-- `generateFood` (textually identical in `SnakeGame.jsx` and `App.jsx`):
draw candidate cells from the random stream, starting at draw index `i`,
until one misses every segment of the given snake; `fuel` bounds the number
of draws, `none` standing for a loop that has not yet terminated. -/
def generateFood (snake : List Cell) (rand : Nat → Cell) : Nat → Nat → Option Cell
  | 0, _ => none
  | fuel + 1, i =>
    let newFood := rand i
    if snake.any fun segment => segment.x == newFood.x && segment.y == newFood.y then
      generateFood snake rand fuel (i + 1)
    else
      some newFood

/-- The `gameState` string of `SnakeGame.jsx`:
`'waiting' | 'playing' | 'paused' | 'gameOver'`. -/
inductive GamePhase where
  | waiting
  | playing
  | paused
  | gameOver
deriving DecidableEq, Repr

namespace SnakeGame

/-- The reactive state of the `SnakeGame` component: the `useState` fields
plus the `arrowKeyProcessingRef` ref (the per-tick key buffer, holding the
key string or `null`). -/
structure EngineState where
  snake : List Cell
  food : Cell
  direction : Cell
  score : Nat
  highScore : Nat
  gameState : GamePhase
  arrowKeyProcessing : Option String
deriving DecidableEq, Repr

/-- The initial render: every field at its `useState` initial value. -/
def initialState : EngineState :=
  { snake := INITIAL_SNAKE
    food := INITIAL_FOOD
    direction := INITIAL_DIRECTION
    score := 0
    highScore := 0
    gameState := .waiting
    arrowKeyProcessing := none }

/-- `resetGame`: reinitialize snake, food, direction, score, phase;
`highScore` and `arrowKeyProcessingRef` are not touched. -/
def resetGame (s : EngineState) : EngineState :=
  { s with
    snake := INITIAL_SNAKE
    food := INITIAL_FOOD
    direction := INITIAL_DIRECTION
    score := 0
    gameState := .waiting }

/-- `startGame`: `resetGame()` then `setGameState('playing')`. -/
def startGame (s : EngineState) : EngineState :=
  { resetGame s with gameState := .playing }

/-- `togglePause`: both `if`s read the same closed-over `gameState`
snapshot, so exactly one of them can fire. -/
def togglePause (s : EngineState) : EngineState :=
  if s.gameState == .playing then { s with gameState := .paused }
  else if s.gameState == .paused then { s with gameState := .playing }
  else s

/-- `moveSnake` (the tick): no-op unless playing; otherwise compute the new
head, check wall then self collision against the full pre-move body, then
prepend the head and either grow (eat: score + 1, new food) or pop the
tail; finally the ref is cleared (`arrowKeyProcessingRef.current = null`
runs after `setSnake` on every playing tick, collisions included).
`generateFood` is applied to the closure's pre-move `snake`, as in the
source. `none` only when the food loop runs out of fuel, or on the
unreachable empty snake (where the source would fault on `newSnake[0]`). -/
def moveSnake (s : EngineState) (rand : Nat → Cell) (fuel : Nat) : Option EngineState :=
  if s.gameState ≠ .playing then some s
  else
    match s.snake with
    | [] => none
    | h0 :: _ =>
      let head : Cell := ⟨h0.x + s.direction.x, h0.y + s.direction.y⟩
      if head.x < 0 ∨ head.x ≥ GRID_SIZE ∨ head.y < 0 ∨ head.y ≥ GRID_SIZE then
        some { s with
                gameState := .gameOver
                highScore := if s.score > s.highScore then s.score else s.highScore
                arrowKeyProcessing := none }
      else if s.snake.any fun segment => segment.x == head.x && segment.y == head.y then
        some { s with
                gameState := .gameOver
                highScore := if s.score > s.highScore then s.score else s.highScore
                arrowKeyProcessing := none }
      else if head.x == s.food.x && head.y == s.food.y then
        match generateFood s.snake rand fuel 0 with
        | none => none
        | some newFood =>
          some { s with
                  snake := head :: s.snake
                  score := s.score + 1
                  food := newFood
                  arrowKeyProcessing := none }
      else
        some { s with
                snake := (head :: s.snake).dropLast
                arrowKeyProcessing := none }

/-- `changeDirection`: the `switch` on the key, each arm guarded by the
anti-reversal check on the current direction. Touches only `direction`. -/
def changeDirection (s : EngineState) (key : String) : EngineState :=
  if key == "ArrowUp" then
    if s.direction.y ≠ 1 then { s with direction := ⟨0, -1⟩ } else s
  else if key == "ArrowDown" then
    if s.direction.y ≠ -1 then { s with direction := ⟨0, 1⟩ } else s
  else if key == "ArrowLeft" then
    if s.direction.x ≠ 1 then { s with direction := ⟨-1, 0⟩ } else s
  else if key == "ArrowRight" then
    if s.direction.x ≠ -1 then { s with direction := ⟨1, 0⟩ } else s
  else s

/-- The arrow-key test of `handleKeyDown` line 131 (negated there). -/
def isArrowKey (key : String) : Bool :=
  key == "ArrowUp" || key == "ArrowDown" || key == "ArrowLeft" || key == "ArrowRight"

/-- `handleKeyDown` (the keyboard input path): space toggles pause; arrows
are dropped unless playing; a non-arrow is ignored; if the ref already
holds a key the event is dropped; otherwise the ref is set to the key and
`changeDirection` runs. -/
def handleKeyDown (s : EngineState) (key : String) : EngineState :=
  if key == " " ∨ key == "Spacebar" then togglePause s
  else if s.gameState ≠ .playing then s
  else if ¬ isArrowKey key then s
  else if s.arrowKeyProcessing.isSome then s
  else changeDirection { s with arrowKeyProcessing := some key } key

/-- The `SwipeHandler` input path (`onSwipeUp={() => changeDirection('ArrowUp')}`
etc.): it calls `changeDirection` directly, with no phase check and no
`arrowKeyProcessingRef` guard. -/
def onSwipe (s : EngineState) (key : String) : EngineState :=
  changeDirection s key

end SnakeGame

namespace App

/-- The reactive state of the `App.jsx` component: a `gameOver` flag and an
`isPlaying` flag instead of the four-valued phase, and no key buffer. -/
structure AppState where
  snake : List Cell
  food : Cell
  direction : Cell
  gameOver : Bool
  score : Nat
  isPlaying : Bool
  highScore : Nat
deriving DecidableEq, Repr

/-- `moveSnake` of `App.jsx`: same step as `SnakeGame.moveSnake` except the
phase flags (`setGameOver(true); setIsPlaying(false)` on collision) and the
food reward (`setScore(prev => prev + 10)`). -/
def moveSnake (s : AppState) (rand : Nat → Cell) (fuel : Nat) : Option AppState :=
  if ¬ s.isPlaying ∨ s.gameOver then some s
  else
    match s.snake with
    | [] => none
    | h0 :: _ =>
      let head : Cell := ⟨h0.x + s.direction.x, h0.y + s.direction.y⟩
      if head.x < 0 ∨ head.x ≥ GRID_SIZE ∨ head.y < 0 ∨ head.y ≥ GRID_SIZE then
        some { s with
                gameOver := true
                isPlaying := false
                highScore := if s.score > s.highScore then s.score else s.highScore }
      else if s.snake.any fun segment => segment.x == head.x && segment.y == head.y then
        some { s with
                gameOver := true
                isPlaying := false
                highScore := if s.score > s.highScore then s.score else s.highScore }
      else if head.x == s.food.x && head.y == s.food.y then
        match generateFood s.snake rand fuel 0 with
        | none => none
        | some newFood =>
          some { s with
                  snake := head :: s.snake
                  score := s.score + 10
                  food := newFood }
      else
        some { s with snake := (head :: s.snake).dropLast }

end App

/-- The direction vector an arrow key requests (the `setDirection` argument
of the corresponding `switch` arm); `⟨0, 0⟩` for a non-arrow key. -/
def keyDirection (key : String) : Cell :=
  if key == "ArrowUp" then ⟨0, -1⟩
  else if key == "ArrowDown" then ⟨0, 1⟩
  else if key == "ArrowLeft" then ⟨-1, 0⟩
  else if key == "ArrowRight" then ⟨1, 0⟩
  else ⟨0, 0⟩

/-! ### Helper lemmas about the embedded operations -/

theorem any_seg_eq_iff_mem (c : Cell) (l : List Cell) :
    (l.any fun segment => segment.x == c.x && segment.y == c.y) = true ↔ c ∈ l := by
  simp only [List.any_eq_true, Bool.and_eq_true, beq_iff_eq]
  constructor
  · rintro ⟨seg, hm, hx, hy⟩
    have hseg : seg = c := by cases seg; cases c; simp_all
    exact hseg ▸ hm
  · intro hm
    exact ⟨c, hm, rfl, rfl⟩

theorem mem_of_getLastEq {l : List Cell} {c : Cell} (h : l.getLast? = some c) : c ∈ l := by
  obtain ⟨hne, heq⟩ := List.mem_getLast?_eq_getLast (show c ∈ l.getLast? from h)
  exact heq ▸ List.getLast_mem hne

theorem moveSnake_collision (s : SnakeGame.EngineState) (rand : Nat → Cell) (fuel : Nat)
    (h0 : Cell) (rest : List Cell)
    (hplay : s.gameState = .playing) (hsnake : s.snake = h0 :: rest)
    (hcol : (h0.x + s.direction.x < 0 ∨ h0.x + s.direction.x ≥ GRID_SIZE ∨
             h0.y + s.direction.y < 0 ∨ h0.y + s.direction.y ≥ GRID_SIZE) ∨
            (⟨h0.x + s.direction.x, h0.y + s.direction.y⟩ : Cell) ∈ s.snake) :
    SnakeGame.moveSnake s rand fuel =
      some { s with
              gameState := .gameOver
              highScore := if s.score > s.highScore then s.score else s.highScore
              arrowKeyProcessing := none } := by
  unfold SnakeGame.moveSnake
  rw [if_neg (by simp [hplay])]
  rw [hsnake]
  dsimp only
  by_cases hwall : h0.x + s.direction.x < 0 ∨ h0.x + s.direction.x ≥ GRID_SIZE ∨
      h0.y + s.direction.y < 0 ∨ h0.y + s.direction.y ≥ GRID_SIZE
  · rw [if_pos hwall]
  · rw [if_neg hwall]
    have hmem : (⟨h0.x + s.direction.x, h0.y + s.direction.y⟩ : Cell) ∈ h0 :: rest := by
      rcases hcol with h | h
      · exact absurd h hwall
      · exact hsnake ▸ h
    have hany := (any_seg_eq_iff_mem (⟨h0.x + s.direction.x, h0.y + s.direction.y⟩ : Cell)
      (h0 :: rest)).mpr hmem
    rw [if_pos hany]

theorem arrow_cases {k : String} (hk : SnakeGame.isArrowKey k = true) :
    k = "ArrowUp" ∨ k = "ArrowDown" ∨ k = "ArrowLeft" ∨ k = "ArrowRight" := by
  simpa [SnakeGame.isArrowKey, or_assoc] using hk

theorem changeDirection_arrowKeyProcessing (s : SnakeGame.EngineState) (key : String) :
    (SnakeGame.changeDirection s key).arrowKeyProcessing = s.arrowKeyProcessing := by
  unfold SnakeGame.changeDirection
  split_ifs <;> rfl

theorem changeDirection_gameState (s : SnakeGame.EngineState) (key : String) :
    (SnakeGame.changeDirection s key).gameState = s.gameState := by
  unfold SnakeGame.changeDirection
  split_ifs <;> rfl

theorem handleKeyDown_arrow_ready (s : SnakeGame.EngineState) (k : String)
    (hplay : s.gameState = .playing) (hready : s.arrowKeyProcessing = none)
    (hk : SnakeGame.isArrowKey k = true) :
    SnakeGame.handleKeyDown s k =
      SnakeGame.changeDirection { s with arrowKeyProcessing := some k } k := by
  rcases arrow_cases hk with rfl | rfl | rfl | rfl <;>
    simp [SnakeGame.handleKeyDown, SnakeGame.isArrowKey, hplay, hready]

theorem handleKeyDown_busy (s : SnakeGame.EngineState) (k : String)
    (hk : SnakeGame.isArrowKey k = true) (hbusy : s.arrowKeyProcessing.isSome = true) :
    SnakeGame.handleKeyDown s k = s := by
  rcases arrow_cases hk with rfl | rfl | rfl | rfl <;>
    simp [SnakeGame.handleKeyDown, SnakeGame.isArrowKey, hbusy]

theorem moveSnake_playing_clears (s : SnakeGame.EngineState) (rand : Nat → Cell) (fuel : Nat)
    (s' : SnakeGame.EngineState) (hplay : s.gameState = .playing)
    (h : SnakeGame.moveSnake s rand fuel = some s') :
    s'.arrowKeyProcessing = none := by
  unfold SnakeGame.moveSnake at h
  rw [if_neg (by simp [hplay])] at h
  rcases hs : s.snake with _ | ⟨h0, rest⟩ <;> rw [hs] at h
  · exact absurd h (by simp)
  · dsimp only at h
    split at h
    · cases Option.some.inj h; rfl
    · split at h
      · cases Option.some.inj h; rfl
      · split at h
        · split at h
          · exact absurd h (by simp)
          · cases Option.some.inj h; rfl
        · cases Option.some.inj h; rfl

/-! ### Claim theorems -/

/-- C1: the claimed invariant — Food never equal to any post-move Snake
cell immediately after a tick — fails on the code: on the tick that eats
the food, `generateFood` filters its candidates against the pre-move snake
captured in its closure, so it can return the cell of the newly prepended
head. At the Playing state with snake `[(5,5),(5,6)]`, direction `(0,-1)`,
food `(5,4)` and a random stream proposing `(5,4)`, the post-tick food
`(5,4)` is a cell of the post-tick snake `[(5,4),(5,5),(5,6)]`. -/
theorem C1_food_placed_on_new_head :
    ∃ s' : SnakeGame.EngineState,
      SnakeGame.moveSnake
        { snake := [⟨5, 5⟩, ⟨5, 6⟩], food := ⟨5, 4⟩, direction := ⟨0, -1⟩, score := 0,
          highScore := 0, gameState := .playing, arrowKeyProcessing := none }
        (fun _ => ⟨5, 4⟩) 1 = some s' ∧
      s'.food ∈ s'.snake := by
  refine ⟨{ snake := [⟨5, 4⟩, ⟨5, 5⟩, ⟨5, 6⟩], food := ⟨5, 4⟩, direction := ⟨0, -1⟩,
            score := 1, highScore := 0, gameState := .playing, arrowKeyProcessing := none },
          by decide, by decide⟩

/-- C8: `resetGame` from any state yields phase Waiting with the exact
initial snake, food, direction and score, and keeps the high score. -/
theorem C8_reset_reinitializes (s : SnakeGame.EngineState) :
    (SnakeGame.resetGame s).gameState = .waiting ∧
    (SnakeGame.resetGame s).snake = [⟨10, 10⟩] ∧
    (SnakeGame.resetGame s).food = ⟨15, 15⟩ ∧
    (SnakeGame.resetGame s).direction = ⟨0, -1⟩ ∧
    (SnakeGame.resetGame s).score = 0 ∧
    (SnakeGame.resetGame s).highScore = s.highScore :=
  ⟨rfl, rfl, rfl, rfl, rfl, rfl⟩

/-- C10: `resetGame` and `startGame` leave the `arrowKeyProcessingRef`
buffer unchanged, and in the concrete run where "ArrowLeft" was buffered
while playing and then `resetGame`/`startGame` are called, the stale buffer
makes the new run drop its first "ArrowRight" keydown; the first playing
tick clears the buffer and a subsequent "ArrowRight" is then applied. -/
theorem C10_pending_survives_reset_start (s : SnakeGame.EngineState) :
    (SnakeGame.resetGame s).arrowKeyProcessing = s.arrowKeyProcessing ∧
    (SnakeGame.startGame s).arrowKeyProcessing = s.arrowKeyProcessing ∧
    (let sD := SnakeGame.startGame (SnakeGame.resetGame
        (SnakeGame.handleKeyDown (SnakeGame.startGame SnakeGame.initialState) "ArrowLeft"))
     sD.arrowKeyProcessing = some "ArrowLeft" ∧
     SnakeGame.handleKeyDown sD "ArrowRight" = sD ∧
     SnakeGame.moveSnake sD (fun _ => ⟨0, 0⟩) 1 =
       some { snake := [⟨10, 9⟩], food := ⟨15, 15⟩, direction := ⟨0, -1⟩, score := 0,
              highScore := 0, gameState := .playing, arrowKeyProcessing := none } ∧
     (SnakeGame.handleKeyDown
        { snake := [⟨10, 9⟩], food := ⟨15, 15⟩, direction := ⟨0, -1⟩, score := 0,
          highScore := 0, gameState := .playing, arrowKeyProcessing := none }
        "ArrowRight").direction = ⟨1, 0⟩) :=
  ⟨rfl, rfl, by decide⟩

/-- C2: on a Playing tick whose new head leaves the grid or hits the
pre-move body, `moveSnake` sets the phase to GameOver, leaves snake, food
and score unchanged, and raises the high score to the score exactly when
the score exceeds it. -/
theorem C2_collision_transitions_to_gameOver (s : SnakeGame.EngineState)
    (rand : Nat → Cell) (fuel : Nat) (h0 : Cell) (rest : List Cell)
    (hplay : s.gameState = .playing) (hsnake : s.snake = h0 :: rest)
    (hcol : (h0.x + s.direction.x < 0 ∨ h0.x + s.direction.x ≥ GRID_SIZE ∨
             h0.y + s.direction.y < 0 ∨ h0.y + s.direction.y ≥ GRID_SIZE) ∨
            (⟨h0.x + s.direction.x, h0.y + s.direction.y⟩ : Cell) ∈ s.snake) :
    ∃ s', SnakeGame.moveSnake s rand fuel = some s' ∧
      s'.gameState = .gameOver ∧ s'.snake = s.snake ∧ s'.food = s.food ∧
      s'.score = s.score ∧
      s'.highScore = (if s.score > s.highScore then s.score else s.highScore) :=
  ⟨_, moveSnake_collision s rand fuel h0 rest hplay hsnake hcol, rfl, rfl, rfl, rfl, rfl⟩

/-- Witness for C2 at the Playing state with snake `[(0,10)]` moving left
into the wall. -/
theorem C2_collision_transitions_to_gameOver_witness :
    ∃ s', SnakeGame.moveSnake
        { snake := [⟨0, 10⟩], food := ⟨15, 15⟩, direction := ⟨-1, 0⟩, score := 0,
          highScore := 0, gameState := .playing, arrowKeyProcessing := none }
        (fun _ => ⟨0, 0⟩) 1 = some s' ∧
      s'.gameState = .gameOver ∧ s'.snake = [⟨0, 10⟩] ∧ s'.food = ⟨15, 15⟩ ∧
      s'.score = 0 ∧ s'.highScore = (if 0 > 0 then 0 else 0) :=
  C2_collision_transitions_to_gameOver
    { snake := [⟨0, 10⟩], food := ⟨15, 15⟩, direction := ⟨-1, 0⟩, score := 0,
      highScore := 0, gameState := .playing, arrowKeyProcessing := none }
    (fun _ => ⟨0, 0⟩) 1 ⟨0, 10⟩ [] rfl rfl (Or.inl (by decide))

/-- C6: the self-collision check of a Playing tick runs against the full
pre-move body, the tail included: with at least two segments, a new head
equal to the current tail cell ends the game and the move is not
performed (snake, food, score unchanged). -/
theorem C6_tail_cell_counts_as_occupied (s : SnakeGame.EngineState)
    (rand : Nat → Cell) (fuel : Nat) (h0 : Cell) (rest : List Cell)
    (hplay : s.gameState = .playing) (hsnake : s.snake = h0 :: rest)
    (hlen : rest ≠ [])
    (htail : s.snake.getLast? = some ⟨h0.x + s.direction.x, h0.y + s.direction.y⟩) :
    ∃ s', SnakeGame.moveSnake s rand fuel = some s' ∧
      s'.gameState = .gameOver ∧ s'.snake = s.snake ∧ s'.food = s.food ∧
      s'.score = s.score :=
  ⟨_, moveSnake_collision s rand fuel h0 rest hplay hsnake
        (Or.inr (mem_of_getLastEq htail)), rfl, rfl, rfl, rfl⟩

/-- Witness for C6: snake `[(5,5),(5,6)]` heading down onto its own tail
cell `(5,6)`, a cell that a non-growth move would vacate this tick. -/
theorem C6_tail_cell_counts_as_occupied_witness :
    ∃ s', SnakeGame.moveSnake
        { snake := [⟨5, 5⟩, ⟨5, 6⟩], food := ⟨15, 15⟩, direction := ⟨0, 1⟩, score := 0,
          highScore := 0, gameState := .playing, arrowKeyProcessing := none }
        (fun _ => ⟨0, 0⟩) 1 = some s' ∧
      s'.gameState = .gameOver ∧ s'.snake = [⟨5, 5⟩, ⟨5, 6⟩] ∧ s'.food = ⟨15, 15⟩ ∧
      s'.score = 0 :=
  C6_tail_cell_counts_as_occupied
    { snake := [⟨5, 5⟩, ⟨5, 6⟩], food := ⟨15, 15⟩, direction := ⟨0, 1⟩, score := 0,
      highScore := 0, gameState := .playing, arrowKeyProcessing := none }
    (fun _ => ⟨0, 0⟩) 1 ⟨5, 5⟩ [⟨5, 6⟩] rfl rfl (by decide) (by decide)

/-- C7: on a collision-free Playing tick, if the new head equals the food
the score goes up by exactly 1 (the per-food reward of `SnakeGame.jsx`),
the head is prepended with no tail pop (length + 1) and the generated food
is installed; otherwise the tail is popped and score, food and length are
preserved. -/
theorem C7_growth_and_slide (s : SnakeGame.EngineState)
    (rand : Nat → Cell) (fuel : Nat) (h0 newFood : Cell) (rest : List Cell)
    (hplay : s.gameState = .playing) (hsnake : s.snake = h0 :: rest)
    (hin : ¬ (h0.x + s.direction.x < 0 ∨ h0.x + s.direction.x ≥ GRID_SIZE ∨
              h0.y + s.direction.y < 0 ∨ h0.y + s.direction.y ≥ GRID_SIZE))
    (hnself : (⟨h0.x + s.direction.x, h0.y + s.direction.y⟩ : Cell) ∉ s.snake)
    (hgen : generateFood s.snake rand fuel 0 = some newFood) :
    SnakeGame.moveSnake s rand fuel =
      some (if (⟨h0.x + s.direction.x, h0.y + s.direction.y⟩ : Cell) = s.food then
              { s with snake := (⟨h0.x + s.direction.x, h0.y + s.direction.y⟩ : Cell) :: s.snake,
                       score := s.score + 1, food := newFood, arrowKeyProcessing := none }
            else
              { s with snake := ((⟨h0.x + s.direction.x, h0.y + s.direction.y⟩ : Cell) :: s.snake).dropLast,
                       arrowKeyProcessing := none }) ∧
    ((⟨h0.x + s.direction.x, h0.y + s.direction.y⟩ : Cell) :: s.snake).length = s.snake.length + 1 ∧
    (((⟨h0.x + s.direction.x, h0.y + s.direction.y⟩ : Cell) :: s.snake).dropLast).length
      = s.snake.length := by
  refine ⟨?_, by simp, by simp [List.length_dropLast, hsnake]⟩
  rw [hsnake] at hgen hnself
  unfold SnakeGame.moveSnake
  rw [if_neg (by simp [hplay])]
  rw [hsnake]
  dsimp only
  rw [if_neg hin]
  have hanyf : ((h0 :: rest).any fun segment =>
      segment.x == h0.x + s.direction.x && segment.y == h0.y + s.direction.y) = false := by
    rw [← Bool.not_eq_true]
    intro hany
    exact hnself ((any_seg_eq_iff_mem ⟨h0.x + s.direction.x, h0.y + s.direction.y⟩
      (h0 :: rest)).mp hany)
  rw [hanyf, if_neg Bool.false_ne_true]
  by_cases heat : (⟨h0.x + s.direction.x, h0.y + s.direction.y⟩ : Cell) = s.food
  · have hb : (h0.x + s.direction.x == s.food.x && h0.y + s.direction.y == s.food.y) = true := by
      rw [← heat]; simp
    rw [hb, if_pos rfl, hgen]
    dsimp only
    rw [if_pos heat]
  · have hb : (h0.x + s.direction.x == s.food.x && h0.y + s.direction.y == s.food.y) = false := by
      rw [← Bool.not_eq_true]
      intro hxy
      apply heat
      rcases Bool.and_eq_true .. |>.mp hxy with ⟨hx, hy⟩
      cases hf : s.food
      simp_all [beq_iff_eq, hf]
    rw [hb, if_neg Bool.false_ne_true, if_neg heat]

/-- Witness for C7 at Scenario C: snake `[(5,5),(5,6)]` moving up onto the
food `(5,4)`; the random stream proposes `(0,0)` for the new food. -/
theorem C7_growth_and_slide_witness :
    SnakeGame.moveSnake
      { snake := [⟨5, 5⟩, ⟨5, 6⟩], food := ⟨5, 4⟩, direction := ⟨0, -1⟩, score := 0,
        highScore := 0, gameState := .playing, arrowKeyProcessing := none }
      (fun _ => ⟨0, 0⟩) 1 =
      some { snake := [⟨5, 4⟩, ⟨5, 5⟩, ⟨5, 6⟩], food := ⟨0, 0⟩, direction := ⟨0, -1⟩,
             score := 1, highScore := 0, gameState := .playing, arrowKeyProcessing := none } ∧
    [(⟨5, 4⟩ : Cell), ⟨5, 5⟩, ⟨5, 6⟩].length = 3 ∧
    [(⟨5, 4⟩ : Cell), ⟨5, 5⟩, ⟨5, 6⟩].dropLast.length = 2 := by
  have h := C7_growth_and_slide
    { snake := [⟨5, 5⟩, ⟨5, 6⟩], food := ⟨5, 4⟩, direction := ⟨0, -1⟩, score := 0,
      highScore := 0, gameState := .playing, arrowKeyProcessing := none }
    (fun _ => ⟨0, 0⟩) 1 ⟨5, 5⟩ ⟨0, 0⟩ [⟨5, 6⟩] rfl rfl (by decide) (by decide) (by decide)
  refine ⟨?_, by decide, by decide⟩
  rw [h.1]
  decide

/-- C3 as stated is false: `setDirection` requests delivered through the
`SwipeHandler` path bypass the per-tick buffer, so two swipe requests
between two ticks both change the current Direction. At the Playing state
with direction `(0,-1)`, a left swipe then a down swipe each change it. -/
theorem C3_swipes_bypass_per_tick_limit :
    (SnakeGame.onSwipe (SnakeGame.startGame SnakeGame.initialState) "ArrowLeft").direction ≠
      (SnakeGame.startGame SnakeGame.initialState).direction ∧
    (SnakeGame.onSwipe (SnakeGame.onSwipe (SnakeGame.startGame SnakeGame.initialState)
        "ArrowLeft") "ArrowDown").direction ≠
      (SnakeGame.onSwipe (SnakeGame.startGame SnakeGame.initialState) "ArrowLeft").direction := by
  decide

/-- C3 amended: the one-request-per-tick policy holds for the keyboard
input path only. While playing with an empty buffer, the first arrow
keydown is buffered (and processed); any further arrow keydown before the
next tick leaves the state unchanged; a playing tick clears the buffer,
and if the tick leaves the game playing a subsequent arrow keydown is
buffered again. Swipe requests are not subject to the buffer. -/
theorem C3_keyboard_single_request_per_tick (s : SnakeGame.EngineState)
    (k k2 : String) (rand : Nat → Cell) (fuel : Nat) (s' : SnakeGame.EngineState)
    (hplay : s.gameState = .playing) (hready : s.arrowKeyProcessing = none)
    (hk : SnakeGame.isArrowKey k = true) (hk2 : SnakeGame.isArrowKey k2 = true)
    (htick : SnakeGame.moveSnake (SnakeGame.handleKeyDown s k) rand fuel = some s')
    (hplay2 : s'.gameState = .playing) :
    (SnakeGame.handleKeyDown s k).arrowKeyProcessing = some k ∧
    SnakeGame.handleKeyDown (SnakeGame.handleKeyDown s k) k2 = SnakeGame.handleKeyDown s k ∧
    s'.arrowKeyProcessing = none ∧
    (SnakeGame.handleKeyDown s' k2).arrowKeyProcessing = some k2 := by
  have hbuf : (SnakeGame.handleKeyDown s k).arrowKeyProcessing = some k := by
    rw [handleKeyDown_arrow_ready s k hplay hready hk, changeDirection_arrowKeyProcessing]
  have hclear : s'.arrowKeyProcessing = none := by
    refine moveSnake_playing_clears (SnakeGame.handleKeyDown s k) rand fuel s' ?_ htick
    rw [handleKeyDown_arrow_ready s k hplay hready hk, changeDirection_gameState]
    exact hplay
  refine ⟨hbuf, ?_, hclear, ?_⟩
  · exact handleKeyDown_busy _ k2 hk2 (by rw [hbuf]; rfl)
  · rw [handleKeyDown_arrow_ready s' k2 hplay2 hclear hk2, changeDirection_arrowKeyProcessing]

/-- Witness for C3 amended: from a fresh playing state, "ArrowRight" is
buffered, a second keydown is ignored, the tick clears the buffer, and
"ArrowUp" is buffered after it. -/
theorem C3_keyboard_single_request_per_tick_witness :
    (SnakeGame.handleKeyDown (SnakeGame.startGame SnakeGame.initialState)
        "ArrowRight").arrowKeyProcessing = some "ArrowRight" ∧
    SnakeGame.handleKeyDown
        (SnakeGame.handleKeyDown (SnakeGame.startGame SnakeGame.initialState) "ArrowRight")
        "ArrowUp" =
      SnakeGame.handleKeyDown (SnakeGame.startGame SnakeGame.initialState) "ArrowRight" ∧
    ({ snake := [⟨11, 10⟩], food := ⟨15, 15⟩, direction := ⟨1, 0⟩, score := 0, highScore := 0,
       gameState := .playing,
       arrowKeyProcessing := none } : SnakeGame.EngineState).arrowKeyProcessing = none ∧
    (SnakeGame.handleKeyDown
        { snake := [⟨11, 10⟩], food := ⟨15, 15⟩, direction := ⟨1, 0⟩, score := 0,
          highScore := 0, gameState := .playing, arrowKeyProcessing := none }
        "ArrowUp").arrowKeyProcessing = some "ArrowUp" :=
  C3_keyboard_single_request_per_tick (SnakeGame.startGame SnakeGame.initialState)
    "ArrowRight" "ArrowUp" (fun _ => ⟨0, 0⟩) 1
    { snake := [⟨11, 10⟩], food := ⟨15, 15⟩, direction := ⟨1, 0⟩, score := 0, highScore := 0,
      gameState := .playing, arrowKeyProcessing := none }
    rfl rfl (by decide) (by decide) (by decide) rfl

/-- C4 as stated is false: a swipe-delivered `setDirection` request goes
straight to `changeDirection` with no phase check, so in the Waiting
initial state a left swipe changes the state (its Direction). -/
theorem C4_swipe_not_dropped_outside_playing :
    SnakeGame.onSwipe SnakeGame.initialState "ArrowLeft" ≠ SnakeGame.initialState := by
  decide

/-- C4 amended: a keyboard-delivered `setDirection` request (an arrow
keydown) in any phase other than Playing leaves the entire state
unchanged; swipe-delivered requests are not phase-checked. -/
theorem C4_keyboard_noop_outside_playing (s : SnakeGame.EngineState) (k : String)
    (hnp : s.gameState ≠ .playing) (hk : SnakeGame.isArrowKey k = true) :
    SnakeGame.handleKeyDown s k = s := by
  rcases arrow_cases hk with rfl | rfl | rfl | rfl <;>
    simp [SnakeGame.handleKeyDown, hnp]

/-- Witness for C4 amended: an "ArrowUp" keydown at the Waiting initial
state is dropped. -/
theorem C4_keyboard_noop_outside_playing_witness :
    SnakeGame.handleKeyDown SnakeGame.initialState "ArrowUp" = SnakeGame.initialState :=
  C4_keyboard_noop_outside_playing SnakeGame.initialState "ArrowUp" (by decide) (by decide)

/-- C5 as stated is false: while Playing with an empty buffer, an
opposite-direction keydown ("ArrowDown" against current `(0,-1)`) leaves
Direction unchanged but is still written into the per-tick buffer, so
PendingDirection does change. -/
theorem C5_opposite_request_still_buffered :
    (SnakeGame.handleKeyDown (SnakeGame.startGame SnakeGame.initialState)
        "ArrowDown").direction = (SnakeGame.startGame SnakeGame.initialState).direction ∧
    (SnakeGame.handleKeyDown (SnakeGame.startGame SnakeGame.initialState)
        "ArrowDown").arrowKeyProcessing ≠
      (SnakeGame.startGame SnakeGame.initialState).arrowKeyProcessing := by
  decide

/-- C5 amended: while Playing with an empty buffer and a unit current
direction, an arrow keydown requesting the exact opposite of the current
direction leaves Direction unchanged, any other arrow keydown sets
Direction to the requested vector; in both cases the key is written into
the per-tick buffer. -/
theorem C5_direction_acceptance (s : SnakeGame.EngineState) (k : String)
    (hplay : s.gameState = .playing) (hready : s.arrowKeyProcessing = none)
    (hk : SnakeGame.isArrowKey k = true)
    (hdir : s.direction ∈ [(⟨0, -1⟩ : Cell), ⟨0, 1⟩, ⟨-1, 0⟩, ⟨1, 0⟩]) :
    (SnakeGame.handleKeyDown s k).direction =
      (if keyDirection k = ⟨-s.direction.x, -s.direction.y⟩ then s.direction
       else keyDirection k) ∧
    (SnakeGame.handleKeyDown s k).arrowKeyProcessing = some k := by
  rw [handleKeyDown_arrow_ready s k hplay hready hk]
  refine ⟨?_, by rw [changeDirection_arrowKeyProcessing]⟩
  have hdir4 : s.direction = ⟨0, -1⟩ ∨ s.direction = ⟨0, 1⟩ ∨
      s.direction = ⟨-1, 0⟩ ∨ s.direction = ⟨1, 0⟩ := by
    simpa using hdir
  rcases arrow_cases hk with rfl | rfl | rfl | rfl <;>
    rcases hdir4 with hd | hd | hd | hd <;>
      simp [SnakeGame.changeDirection, keyDirection, hd]

/-- Witness for C5 amended: a perpendicular "ArrowLeft" while moving up is
accepted into Direction and buffered. -/
theorem C5_direction_acceptance_witness :
    (SnakeGame.handleKeyDown (SnakeGame.startGame SnakeGame.initialState)
        "ArrowLeft").direction =
      (if keyDirection "ArrowLeft" =
          ⟨-(SnakeGame.startGame SnakeGame.initialState).direction.x,
           -(SnakeGame.startGame SnakeGame.initialState).direction.y⟩ then
        (SnakeGame.startGame SnakeGame.initialState).direction
       else keyDirection "ArrowLeft") ∧
    (SnakeGame.handleKeyDown (SnakeGame.startGame SnakeGame.initialState)
        "ArrowLeft").arrowKeyProcessing = some "ArrowLeft" :=
  C5_direction_acceptance (SnakeGame.startGame SnakeGame.initialState) "ArrowLeft"
    rfl rfl (by decide) (by decide)

/-- C9 as stated is false: on identical input states whose head eats the
food, the step of `App.jsx` adds 10 to the score while the step of
`SnakeGame.jsx` adds 1, so the successors differ. -/
theorem C9_reward_mismatch :
    (SnakeGame.moveSnake
        { snake := [⟨5, 5⟩, ⟨5, 6⟩], food := ⟨5, 4⟩, direction := ⟨0, -1⟩, score := 0,
          highScore := 0, gameState := .playing, arrowKeyProcessing := none }
        (fun _ => ⟨0, 0⟩) 1).map SnakeGame.EngineState.score = some 1 ∧
    (App.moveSnake
        { snake := [⟨5, 5⟩, ⟨5, 6⟩], food := ⟨5, 4⟩, direction := ⟨0, -1⟩, gameOver := false,
          score := 0, isPlaying := true, highScore := 0 }
        (fun _ => ⟨0, 0⟩) 1).map App.AppState.score = some 10 ∧
    (1 : Nat) ≠ 10 := by
  decide

/-- C9 amended: on identical input states (equivalent playing phase), the
two per-tick steps produce successors agreeing on snake, food, direction,
high score and phase; the scores agree except on the eating tick, where
`App.jsx` adds 10 and `SnakeGame.jsx` adds 1 (captured by the last
equation, since the `SnakeGame` score rises by at most one). -/
theorem C9_step_agreement_up_to_reward (s : SnakeGame.EngineState) (a : App.AppState)
    (rand : Nat → Cell) (fuel : Nat) (s' : SnakeGame.EngineState) (a' : App.AppState)
    (hplay : s.gameState = .playing)
    (h1 : a.snake = s.snake) (h2 : a.food = s.food) (h3 : a.direction = s.direction)
    (h4 : a.score = s.score) (h5 : a.highScore = s.highScore)
    (h6 : a.isPlaying = true) (h7 : a.gameOver = false)
    (hs : SnakeGame.moveSnake s rand fuel = some s')
    (ha : App.moveSnake a rand fuel = some a') :
    a'.snake = s'.snake ∧ a'.food = s'.food ∧ a'.direction = s'.direction ∧
    a'.highScore = s'.highScore ∧
    (a'.gameOver = true ∧ a'.isPlaying = false ↔ s'.gameState = .gameOver) ∧
    a'.score = s.score + 10 * (s'.score - s.score) := by
  unfold SnakeGame.moveSnake at hs
  unfold App.moveSnake at ha
  rw [if_neg (by simp [hplay])] at hs
  rw [if_neg (by simp [h6, h7])] at ha
  rw [h1, h2, h3, h4, h5] at ha
  rcases hsn : s.snake with _ | ⟨h0, rest⟩
  · rw [hsn] at hs
    exact absurd hs (by simp)
  · rw [hsn] at hs ha
    dsimp only at hs ha
    by_cases hwall : h0.x + s.direction.x < 0 ∨ h0.x + s.direction.x ≥ GRID_SIZE ∨
        h0.y + s.direction.y < 0 ∨ h0.y + s.direction.y ≥ GRID_SIZE
    · rw [if_pos hwall] at hs ha
      cases Option.some.inj hs
      cases Option.some.inj ha
      refine ⟨rfl, rfl, rfl, rfl, by simp [h7, hplay], by simp⟩
    · rw [if_neg hwall] at hs ha
      by_cases hself : ((h0 :: rest).any fun segment =>
          segment.x == h0.x + s.direction.x && segment.y == h0.y + s.direction.y) = true
      · rw [if_pos hself] at hs ha
        cases Option.some.inj hs
        cases Option.some.inj ha
        refine ⟨rfl, rfl, rfl, rfl, by simp [h7, hplay], by simp⟩
      · rw [if_neg hself] at hs ha
        by_cases heat : (h0.x + s.direction.x == s.food.x &&
            h0.y + s.direction.y == s.food.y) = true
        · rw [if_pos heat] at hs ha
          rcases hg : generateFood (h0 :: rest) rand fuel 0 with _ | nf <;> rw [hg] at hs ha
          · exact absurd hs (by simp)
          · dsimp only at hs ha
            cases Option.some.inj hs
            cases Option.some.inj ha
            refine ⟨rfl, rfl, rfl, rfl, by simp [h7, hplay], by simp⟩
        · rw [if_neg heat] at hs ha
          cases Option.some.inj hs
          cases Option.some.inj ha
          refine ⟨rfl, rfl, rfl, rfl, by simp [h7, hplay], by simp⟩

/-- Witness for C9 amended at the eating state of Scenario C: the
successors agree on everything but the score, where `App.jsx` reaches 10
and `SnakeGame.jsx` reaches 1 = 0 + 10 * (1 - 0) over 10. -/
theorem C9_step_agreement_up_to_reward_witness :
    ({ snake := [⟨5, 4⟩, ⟨5, 5⟩, ⟨5, 6⟩], food := ⟨0, 0⟩, direction := ⟨0, -1⟩,
       gameOver := false, score := 10, isPlaying := true,
       highScore := 0 } : App.AppState).snake =
      ({ snake := [⟨5, 4⟩, ⟨5, 5⟩, ⟨5, 6⟩], food := ⟨0, 0⟩, direction := ⟨0, -1⟩, score := 1,
         highScore := 0, gameState := .playing,
         arrowKeyProcessing := none } : SnakeGame.EngineState).snake ∧
    ({ snake := [⟨5, 4⟩, ⟨5, 5⟩, ⟨5, 6⟩], food := ⟨0, 0⟩, direction := ⟨0, -1⟩,
       gameOver := false, score := 10, isPlaying := true,
       highScore := 0 } : App.AppState).food =
      ({ snake := [⟨5, 4⟩, ⟨5, 5⟩, ⟨5, 6⟩], food := ⟨0, 0⟩, direction := ⟨0, -1⟩, score := 1,
         highScore := 0, gameState := .playing,
         arrowKeyProcessing := none } : SnakeGame.EngineState).food ∧
    ({ snake := [⟨5, 4⟩, ⟨5, 5⟩, ⟨5, 6⟩], food := ⟨0, 0⟩, direction := ⟨0, -1⟩,
       gameOver := false, score := 10, isPlaying := true,
       highScore := 0 } : App.AppState).direction =
      ({ snake := [⟨5, 4⟩, ⟨5, 5⟩, ⟨5, 6⟩], food := ⟨0, 0⟩, direction := ⟨0, -1⟩, score := 1,
         highScore := 0, gameState := .playing,
         arrowKeyProcessing := none } : SnakeGame.EngineState).direction ∧
    ({ snake := [⟨5, 4⟩, ⟨5, 5⟩, ⟨5, 6⟩], food := ⟨0, 0⟩, direction := ⟨0, -1⟩,
       gameOver := false, score := 10, isPlaying := true,
       highScore := 0 } : App.AppState).highScore =
      ({ snake := [⟨5, 4⟩, ⟨5, 5⟩, ⟨5, 6⟩], food := ⟨0, 0⟩, direction := ⟨0, -1⟩, score := 1,
         highScore := 0, gameState := .playing,
         arrowKeyProcessing := none } : SnakeGame.EngineState).highScore ∧
    (({ snake := [⟨5, 4⟩, ⟨5, 5⟩, ⟨5, 6⟩], food := ⟨0, 0⟩, direction := ⟨0, -1⟩,
        gameOver := false, score := 10, isPlaying := true,
        highScore := 0 } : App.AppState).gameOver = true ∧
      ({ snake := [⟨5, 4⟩, ⟨5, 5⟩, ⟨5, 6⟩], food := ⟨0, 0⟩, direction := ⟨0, -1⟩,
         gameOver := false, score := 10, isPlaying := true,
         highScore := 0 } : App.AppState).isPlaying = false ↔
      ({ snake := [⟨5, 4⟩, ⟨5, 5⟩, ⟨5, 6⟩], food := ⟨0, 0⟩, direction := ⟨0, -1⟩, score := 1,
         highScore := 0, gameState := .playing,
         arrowKeyProcessing := none } : SnakeGame.EngineState).gameState = .gameOver) ∧
    ({ snake := [⟨5, 4⟩, ⟨5, 5⟩, ⟨5, 6⟩], food := ⟨0, 0⟩, direction := ⟨0, -1⟩,
       gameOver := false, score := 10, isPlaying := true,
       highScore := 0 } : App.AppState).score = 0 + 10 * (1 - 0) :=
  C9_step_agreement_up_to_reward
    { snake := [⟨5, 5⟩, ⟨5, 6⟩], food := ⟨5, 4⟩, direction := ⟨0, -1⟩, score := 0,
      highScore := 0, gameState := .playing, arrowKeyProcessing := none }
    { snake := [⟨5, 5⟩, ⟨5, 6⟩], food := ⟨5, 4⟩, direction := ⟨0, -1⟩, gameOver := false,
      score := 0, isPlaying := true, highScore := 0 }
    (fun _ => ⟨0, 0⟩) 1
    { snake := [⟨5, 4⟩, ⟨5, 5⟩, ⟨5, 6⟩], food := ⟨0, 0⟩, direction := ⟨0, -1⟩, score := 1,
      highScore := 0, gameState := .playing, arrowKeyProcessing := none }
    { snake := [⟨5, 4⟩, ⟨5, 5⟩, ⟨5, 6⟩], food := ⟨0, 0⟩, direction := ⟨0, -1⟩,
      gameOver := false, score := 10, isPlaying := true, highScore := 0 }
    rfl rfl rfl rfl rfl rfl rfl rfl (by decide) (by decide)
